import Mathlib

/-!
Shallow embedding of `IamTestHelper.js` from serverless-iam-test-helper.

The ambient credential context (the relevant slice of `process.env`) is
modelled as a record of optional strings; JavaScript `delete process.env.X`
becomes setting the field to `none`, and an assignment becomes `some`.
Each method of the `IamTestHelper` class that mutates the session object or
the environment is embedded as a pure function from the old state (plus the
response of any remote call the method awaits) to the new state.
-/

namespace IamHelper

/-- The slice of `process.env` the helper reads or writes.  A field is `none`
when the variable is unset (`undefined` in JS). -/
structure Env where
  AWS_ACCESS_KEY_ID : Option String
  AWS_SECRET_ACCESS_KEY : Option String
  AWS_SESSION_TOKEN : Option String
  AWS_PROFILE : Option String
  AWS_SSO_SESSION_NAME : Option String
  AWS_SSO_START_URL : Option String
  stage : Option String
  region : Option String
  service : Option String
deriving DecidableEq, Repr

/-- The four credential fields captured by the constructor into
`this.originalCredentialState` (lines 21-26). -/
structure CredSnapshot where
  AWS_ACCESS_KEY_ID : Option String
  AWS_SECRET_ACCESS_KEY : Option String
  AWS_SESSION_TOKEN : Option String
  AWS_PROFILE : Option String
deriving DecidableEq, Repr

/-- Project the four credential fields out of an environment. -/
def credSnapshot (e : Env) : CredSnapshot :=
  { AWS_ACCESS_KEY_ID := e.AWS_ACCESS_KEY_ID
    AWS_SECRET_ACCESS_KEY := e.AWS_SECRET_ACCESS_KEY
    AWS_SESSION_TOKEN := e.AWS_SESSION_TOKEN
    AWS_PROFILE := e.AWS_PROFILE }

/-- The credential triple produced by `rewriteCredentials` (lines 210-216). -/
structure Credentials where
  accessKeyId : String
  secretAccessKey : String
  sessionToken : String
deriving DecidableEq, Repr

/-- The `Credentials` member of an `AssumeRole` response (field names as in
the AWS response shape consumed at lines 212-214). -/
structure AssumeRoleCredentials where
  AccessKeyId : String
  SecretAccessKey : String
  SessionToken : String
deriving DecidableEq, Repr

/-- A `GetCallerIdentity` response (the two fields read at lines 119-120). -/
structure CallerIdentity where
  Account : String
  Arn : String
deriving DecidableEq, Repr

/-- Result of an awaited STS call: either the response or a thrown service
error carrying `error.name` and `error.message`. -/
inductive StsResult (α : Type) where
  | ok (response : α)
  | err (name message : String)
deriving DecidableEq, Repr

/-- JS truthiness of an env-var read: `undefined` and the empty string are
falsy, every other string is truthy. -/
def truthyOpt : Option String → Bool
  | none => false
  | some s => s ≠ ""

/-- Does `pat` occur as a contiguous run inside `l`? -/
def charsInclude (pat : List Char) : List Char → Bool
  | [] => pat.isEmpty
  | c :: tl => pat.isPrefixOf (c :: tl) || charsInclude pat tl

/-- JS `String.prototype.includes`: `s` contains `pat` as a substring. -/
def strIncludes (s pat : String) : Bool :=
  charsInclude pat.data s.data

/-- JS `String.prototype.endsWith`: `pat` is a suffix of `s`. -/
def strEndsWith (s pat : String) : Bool :=
  pat.data.isSuffixOf s.data

/-- The `Principal.AWS` field of the first trust-policy statement
(line 176): can be absent, a single string, or a list of strings. -/
inductive AwsPrincipalField where
  | absent
  | scalar (s : String)
  | list (l : List String)
deriving DecidableEq, Repr

/-- State the helper keeps on `this` across the assume pipeline. -/
structure Session where
  roleName : String
  roleArn : Option String
  isSSO : Bool
  originalCredentialState : CredSnapshot
  credentials : Option Credentials
  masterCredentials : Option Credentials
  awsAccountId : Option String
  principal : Option String
  trustPrincipalAWS : Option AwsPrincipalField
deriving DecidableEq, Repr

/-- `detectSSO` (lines 30-43): SSO env markers first, then the profile-name
heuristic (`profile` truthy and containing `-sso` or ending in `sso`). -/
def detectSSO (e : Env) : Bool :=
  if truthyOpt e.AWS_SSO_SESSION_NAME || truthyOpt e.AWS_SSO_START_URL then
    true
  else
    match e.AWS_PROFILE with
    | none => false
    | some profile =>
        profile ≠ "" && (strIncludes profile "-sso" || strEndsWith profile "sso")

/-- The constructor (lines 13-27): records the role name, runs `detectSSO`,
and snapshots the four credential fields of the current environment. -/
def mkSession (roleName : String) (e : Env) : Session :=
  { roleName := roleName
    roleArn := none
    isSSO := detectSSO e
    originalCredentialState := credSnapshot e
    credentials := none
    masterCredentials := none
    awsAccountId := none
    principal := none
    trustPrincipalAWS := none }

/-- How JS renders a possibly-undefined value inside a template literal:
`undefined` prints as the string "undefined". -/
def jsInterp : Option String → String
  | none => "undefined"
  | some s => s

/-- The role-name derivation inside `assumeRoleByLambdaName` (lines 54-59):
build `service-stage-lambdaName-region`, append `-lambdaRole`, and fall back
to the suffix-less base when the suffixed name is longer than 64. -/
def deriveRoleName (stage regionIn service lambdaName : String) : String :=
  let baseRoleName := service ++ "-" ++ stage ++ "-" ++ lambdaName ++ "-" ++ regionIn
  let roleName := baseRoleName ++ "-lambdaRole"
  if roleName.length > 64 then baseRoleName else roleName

/-- `assumeRoleByLambdaName` up to the hand-off to `executeRoleAssume`
(lines 49-61): validates the three environment inputs (JS truthiness) and
either throws the configuration error built at line 52 or derives the role
name that `executeRoleAssume` is then called with. -/
def assumeRoleByLambdaName (e : Env) (lambdaName : String) : Except String String :=
  if !truthyOpt e.stage || !truthyOpt e.region || !truthyOpt e.service then
    .error ("You need to define in Lambda variables: stage(" ++ jsInterp e.stage ++
      "), region(" ++ jsInterp e.region ++ "), service(" ++ jsInterp e.service ++ ").")
  else
    .ok (deriveRoleName (jsInterp e.stage) (jsInterp e.region) (jsInterp e.service) lambdaName)

/-- `getCallerIdentity` (lines 115-138), success path: stores account and
principal, and upgrades `isSSO` to true when the principal ARN carries one
of the two federation markers (lines 122-125).  It never sets `isSSO` back
to false.  On the error path (lines 132-137) the method throws before any
assignment, leaving the session unchanged. -/
def getCallerIdentity (s : Session) (r : CallerIdentity) : Session :=
  { s with
    awsAccountId := some r.Account
    principal := some r.Arn
    isSSO := s.isSSO || strIncludes r.Arn "AWSReservedSSO_" ||
      strIncludes r.Arn "/sso-session/" }

/-- `getCallerCredentials` (lines 140-161): skipped entirely for SSO
sessions; otherwise a `GetSessionToken` success stores the master
credentials, and the specific `AccessDenied ... GetSessionToken with
session credentials` error upgrades `isSSO` to true (line 155) while other
errors rethrow with the session unchanged. -/
def getCallerCredentials (s : Session) (r : StsResult Credentials) : Session :=
  if s.isSSO then
    { s with masterCredentials := none }
  else
    match r with
    | .ok c => { s with masterCredentials := some c }
    | .err name message =>
        if name = "AccessDenied" &&
            strIncludes message "GetSessionToken with session credentials" then
          { s with isSSO := true, masterCredentials := none }
        else
          s

/-- `getRoleTrustPolicy` (lines 163-172): stores the decoded trust policy;
only the first statement's `Principal.AWS` field is modelled, since it is
the only part the helper later reads or rewrites. -/
def getRoleTrustPolicy (s : Session) (f : AwsPrincipalField) : Session :=
  { s with trustPrincipalAWS := some f }

/-- The inner `shouldUpdateRole` predicate of `updateRoleTrustPolicy`
(lines 178-190), with JS truthiness made explicit: `!section` is true for
an absent field and for the empty-string scalar; for a list,
`!section.find(e => e === principal)` is true when the principal is not in
the list (and also when the found element is itself the falsy empty
string); for other scalars the test is plain inequality. -/
def shouldUpdateRole (principal : String) : AwsPrincipalField → Bool
  | .absent => true
  | .scalar str => if str = "" then true else str ≠ principal
  | .list l => if l.contains principal then principal = "" else true

/-- The rewrite at line 195:
`awsGroupInRole ? [awsGroupInRole, this.principal].flat() : this.principal`.
An absent or empty-scalar field (falsy) is replaced by the bare principal;
a non-empty scalar becomes the two-element list; a list gets the principal
appended (`flat` splices the existing list). -/
def updatedPrincipalField (principal : String) : AwsPrincipalField → AwsPrincipalField
  | .absent => .scalar principal
  | .scalar str => if str = "" then .scalar principal else .list [str, principal]
  | .list l => .list (l ++ [principal])

/-- Observable outcome of `updateRoleTrustPolicy`: the resulting
`Principal.AWS` field, how many `UpdateAssumeRolePolicy` calls were made,
and how many seconds the method slept before returning. -/
structure TrustUpdate where
  field : AwsPrincipalField
  mutationCalls : Nat
  settleDelaySeconds : Nat
deriving DecidableEq, Repr

/-- `updateRoleTrustPolicy` (lines 174-207): when `shouldUpdateRole` holds,
rewrite the field, submit one `UpdateAssumeRolePolicy` call and sleep 15
seconds; otherwise change nothing and make no call. -/
def updateRoleTrustPolicy (principal : String) (f : AwsPrincipalField) : TrustUpdate :=
  if shouldUpdateRole principal f then
    { field := updatedPrincipalField principal f, mutationCalls := 1, settleDelaySeconds := 15 }
  else
    { field := f, mutationCalls := 0, settleDelaySeconds := 0 }

/-- Session-level view of `updateRoleTrustPolicy`, given the principal and
trust field already stored on the session. -/
def sessionUpdateTrustPolicy (s : Session) (principal : String) (f : AwsPrincipalField) :
    Session :=
  { s with trustPrincipalAWS := some (updateRoleTrustPolicy principal f).field }

/-- `rewriteCredentials` (lines 210-216). -/
def rewriteCredentials (d : AssumeRoleCredentials) : Credentials :=
  { accessKeyId := d.AccessKeyId
    secretAccessKey := d.SecretAccessKey
    sessionToken := d.SessionToken }

/-- `assumeLambdaRole` (lines 218-233): records the role ARN and the
rewritten temporary credentials from the `AssumeRole` response. -/
def assumeLambdaRole (s : Session) (d : AssumeRoleCredentials) : Session :=
  { s with
    roleArn := some ("arn:aws:iam::" ++ jsInterp s.awsAccountId ++ ":role/" ++ s.roleName)
    credentials := some (rewriteCredentials d) }

/-- `getCallerIdentityInRole` (lines 100-113): overwrites account and
principal from the in-role identity response; does not touch `isSSO`. -/
def getCallerIdentityInRole (s : Session) (r : CallerIdentity) : Session :=
  { s with awsAccountId := some r.Account, principal := some r.Arn }

/-- `refreshCredentials` (lines 79-94): no-op for SSO sessions; otherwise
a successful `GetSessionToken` replaces the master credentials and a
failure rethrows with the session unchanged. -/
def refreshCredentials (s : Session) (r : StsResult Credentials) : Session :=
  if s.isSSO then s
  else
    match r with
    | .ok c => { s with masterCredentials := some c }
    | .err _ _ => s

/-- `setCredentialsInEnv` (lines 235-247): for an SSO session first delete
`AWS_PROFILE`, then install the three assumed-credential variables.  When
`this.credentials` is still undefined the property reads at lines 242-244
throw, modelled as `none`. -/
def setCredentialsInEnv (s : Session) (e : Env) : Option Env :=
  match s.credentials with
  | none => none
  | some c =>
      let e1 := if s.isSSO then { e with AWS_PROFILE := none } else e
      some { e1 with
        AWS_ACCESS_KEY_ID := some c.accessKeyId
        AWS_SECRET_ACCESS_KEY := some c.secretAccessKey
        AWS_SESSION_TOKEN := some c.sessionToken }

/-- The three `delete process.env.*` statements shared by both restore
paths (lines 261-263 and 311-313). -/
def clearAssumedCreds (e : Env) : Env :=
  { e with
    AWS_ACCESS_KEY_ID := none
    AWS_SECRET_ACCESS_KEY := none
    AWS_SESSION_TOKEN := none }

/-- One `if (orig !== undefined) process.env.X = orig` guard from the
static-profile restore branch (lines 293-304): reinstate the snapshot value
when it was present, otherwise leave the current value alone. -/
def restoreField (orig cur : Option String) : Option String :=
  match orig with
  | none => cur
  | some v => some v

/-- The environment after the SSO branch of the instance
`assumeUserRoleBack` (lines 266-270): assumed credentials cleared and only
`AWS_PROFILE` reinstated (when its snapshot value was present). -/
def ssoRestoredEnv (snap : CredSnapshot) (e : Env) : Env :=
  let e0 := clearAssumedCreds e
  match snap.AWS_PROFILE with
  | none => e0
  | some p => { e0 with AWS_PROFILE := some p }

/-- The environment after the static branch of the instance
`assumeUserRoleBack` (lines 291-305): assumed credentials cleared, then
every snapshot field that was present reinstated. -/
def staticRestoredEnv (snap : CredSnapshot) (e : Env) : Env :=
  let e0 := clearAssumedCreds e
  { e0 with
    AWS_ACCESS_KEY_ID := restoreField snap.AWS_ACCESS_KEY_ID e0.AWS_ACCESS_KEY_ID
    AWS_SECRET_ACCESS_KEY := restoreField snap.AWS_SECRET_ACCESS_KEY e0.AWS_SECRET_ACCESS_KEY
    AWS_SESSION_TOKEN := restoreField snap.AWS_SESSION_TOKEN e0.AWS_SESSION_TOKEN
    AWS_PROFILE := restoreField snap.AWS_PROFILE e0.AWS_PROFILE }

/-- Observable outcome of one run of the instance `assumeUserRoleBack`: the
resulting environment and the total seconds spent in `setTimeout` waits. -/
structure RestoreOutcome where
  env : Env
  delaySeconds : Nat
deriving DecidableEq, Repr

/-- The instance `assumeUserRoleBack` (lines 257-308).  `verify` is the
outcome of the verification `GetCallerIdentity` call of the SSO branch
(lines 279-290); its failure is caught, logged, and followed by one extra
3-second wait, so the method itself never throws — a hypothetical uncaught
error would appear as `.error`.  The static branch performs no waits and no
remote calls. -/
def assumeUserRoleBack (s : Session) (verify : StsResult CallerIdentity) (e : Env) :
    Except String RestoreOutcome :=
  if s.isSSO then
    let e1 := ssoRestoredEnv s.originalCredentialState e
    match verify with
    | .ok _ => .ok { env := e1, delaySeconds := 2 }
    | .err _ _ => .ok { env := e1, delaySeconds := 2 + 3 }
  else
    .ok { env := staticRestoredEnv s.originalCredentialState e, delaySeconds := 0 }

/-- The static `assumeUserRoleBack` (lines 310-314): it only deletes the
three assumed-credential variables; it has no session and restores
nothing. -/
def staticAssumeUserRoleBack (e : Env) : Env :=
  clearAssumedCreds e

/-- The static `leaveLambdaRole` (lines 253-255) calls
`this.assumeUserRoleBack()` with `this` being the class, hence the static
variant above. -/
def staticLeaveLambdaRole (e : Env) : Env :=
  staticAssumeUserRoleBack e

/-- The instance `leaveLambdaRole` (lines 249-251):
`IamTestHelper.assumeUserRoleBack.call(this)` looks the method up on the
class object, so it invokes the STATIC `assumeUserRoleBack` (which ignores
`this`), not the instance one — the session argument is unused. -/
def instanceLeaveLambdaRole (_s : Session) (e : Env) : Env :=
  staticAssumeUserRoleBack e

/-- One-step relation over sessions: `SessionStep s t` holds when some
method of the helper, awaited with some remote-call outcome, turns the
session state `s` into `t`. -/
inductive SessionStep : Session → Session → Prop where
  | callerIdentity (s : Session) (r : CallerIdentity) :
      SessionStep s (getCallerIdentity s r)
  | callerIdentityErr (s : Session) :
      SessionStep s s
  | callerCredentials (s : Session) (r : StsResult Credentials) :
      SessionStep s (getCallerCredentials s r)
  | roleTrustPolicy (s : Session) (f : AwsPrincipalField) :
      SessionStep s (getRoleTrustPolicy s f)
  | updateTrustPolicy (s : Session) (principal : String) (f : AwsPrincipalField) :
      SessionStep s (sessionUpdateTrustPolicy s principal f)
  | lambdaRole (s : Session) (d : AssumeRoleCredentials) :
      SessionStep s (assumeLambdaRole s d)
  | identityInRole (s : Session) (r : CallerIdentity) :
      SessionStep s (getCallerIdentityInRole s r)
  | refresh (s : Session) (r : StsResult Credentials) :
      SessionStep s (refreshCredentials s r)

/-- Events observable while jest runs a suite declared through
`withAssumedRole` (lines 325-347). -/
inductive TestEvent where
  | assumeCompleted
  | testsExecuted
  | restoreCompleted
  | cleanupInvoked
deriving DecidableEq, Repr

/-- The event trace of one jest run of a suite declared via
`withAssumedRole` (lines 325-347): `beforeAll` assigns `iamHelper` only
when `assumeRoleByLambdaName` resolved (`assumeSucceeded`); `afterAll`
checks `iamHelper`, awaits the instance `assumeUserRoleBack`, and only then
awaits the `cleanup` option when one was supplied.  When `beforeAll`
throws, jest skips the tests but still runs `afterAll`, whose `if
(iamHelper)` guard is then false. -/
def withAssumedRole (assumeSucceeded hasCleanup : Bool) : List TestEvent :=
  (if assumeSucceeded then [TestEvent.assumeCompleted, TestEvent.testsExecuted] else []) ++
  (if assumeSucceeded then
    [TestEvent.restoreCompleted] ++ (if hasCleanup then [TestEvent.cleanupInvoked] else [])
  else [])

/-- `describeWithRole` (lines 357-361) wraps `withAssumedRole` in a
`describe` block and adds nothing to the observable trace. -/
def describeWithRole (assumeSucceeded hasCleanup : Bool) : List TestEvent :=
  withAssumedRole assumeSucceeded hasCleanup

/-- A 58-character service name, long enough that even the suffix-less base
role name exceeds 64 characters. -/
def longService : String :=
  String.mk (List.replicate 58 'a')

/-- A 54-character service name: the suffixed role name exceeds 64
characters but the suffix-less base does not. -/
def midService : String :=
  String.mk (List.replicate 54 'a')

/-- A concrete static-credential environment: long-lived key pair in the
ambient context, a non-SSO profile, and the three naming variables set. -/
def sampleEnv : Env :=
  { AWS_ACCESS_KEY_ID := some "AKIAORIGINAL"
    AWS_SECRET_ACCESS_KEY := some "originalSecret"
    AWS_SESSION_TOKEN := none
    AWS_PROFILE := some "default"
    AWS_SSO_SESSION_NAME := none
    AWS_SSO_START_URL := none
    stage := some "dev"
    region := some "us-east-1"
    service := some "svc" }

/-- A concrete IAM-user caller identity with no federation markers. -/
def sampleIdentity : CallerIdentity :=
  { Account := "123456789012", Arn := "arn:aws:iam::123456789012:user/dev" }

/-- Concrete temporary credentials returned by `AssumeRole`. -/
def sampleAssumed : AssumeRoleCredentials :=
  { AccessKeyId := "ASIAASSUMED"
    SecretAccessKey := "assumedSecret"
    SessionToken := "assumedToken" }

/-- A fully assembled STATIC-origin session: constructed over `sampleEnv`,
identified as `sampleIdentity`, holding the assumed credentials. -/
def staticSession : Session :=
  assumeLambdaRole
    (getCallerIdentity (mkSession "svc-dev-createItem-us-east-1-lambdaRole" sampleEnv)
      sampleIdentity)
    sampleAssumed

/-- `sampleEnv` after `staticSession` installed its assumed credentials. -/
def assumedEnv : Env :=
  { sampleEnv with
    AWS_ACCESS_KEY_ID := some "ASIAASSUMED"
    AWS_SECRET_ACCESS_KEY := some "assumedSecret"
    AWS_SESSION_TOKEN := some "assumedToken" }

/-- `sampleEnv` with the SSO-named profile, so construction classifies the
session as FEDERATED. -/
def ssoEnv : Env :=
  { sampleEnv with AWS_PROFILE := some "my-sso-profile" }

/-- A session constructed over `ssoEnv` (classified FEDERATED). -/
def ssoSession : Session :=
  mkSession "svc-dev-createItem-us-east-1-lambdaRole" ssoEnv

/-- An environment whose three assumed-credential variables are absent
before assumption (credentials come from the profile alone). -/
def cleanEnv : Env :=
  { sampleEnv with
    AWS_ACCESS_KEY_ID := none
    AWS_SECRET_ACCESS_KEY := none
    AWS_SESSION_TOKEN := none }

/-- A STATIC-origin session constructed over `cleanEnv`, holding assumed
credentials. -/
def cleanSession : Session :=
  assumeLambdaRole
    (getCallerIdentity (mkSession "svc-dev-createItem-us-east-1-lambdaRole" cleanEnv)
      sampleIdentity)
    sampleAssumed

/-- `cleanEnv` after `cleanSession` installed its assumed credentials. -/
def cleanAssumedEnv : Env :=
  { cleanEnv with
    AWS_ACCESS_KEY_ID := some "ASIAASSUMED"
    AWS_SECRET_ACCESS_KEY := some "assumedSecret"
    AWS_SESSION_TOKEN := some "assumedToken" }

theorem restoreField_none (o : Option String) : restoreField o none = o := by
  cases o <;> rfl

theorem restoreField_self (o : Option String) : restoreField o o = o := by
  cases o <;> rfl

/-- C3: role-name derivation is deterministic and follows the stated
algorithm: the base `service-stage-functionLogicalName-region` gets the
fixed suffix `-lambdaRole`; exactly when the suffixed name exceeds 64
characters the suffix-less base alone is returned — no truncation, no
hashing. -/
theorem deriveRoleName_algorithm (stage rg svc fn : String) :
    (((svc ++ "-" ++ stage ++ "-" ++ fn ++ "-" ++ rg) ++ "-lambdaRole").length ≤ 64 →
      deriveRoleName stage rg svc fn =
        (svc ++ "-" ++ stage ++ "-" ++ fn ++ "-" ++ rg) ++ "-lambdaRole") ∧
    (64 < ((svc ++ "-" ++ stage ++ "-" ++ fn ++ "-" ++ rg) ++ "-lambdaRole").length →
      deriveRoleName stage rg svc fn = svc ++ "-" ++ stage ++ "-" ++ fn ++ "-" ++ rg) ∧
    deriveRoleName stage rg svc fn = deriveRoleName stage rg svc fn := by
  refine ⟨fun h => ?_, fun h => ?_, rfl⟩
  · simp only [deriveRoleName]
    rw [if_neg (by omega)]
  · simp only [deriveRoleName]
    rw [if_pos h]

/-- Witness for C3 on the spec's own example inputs. -/
theorem deriveRoleName_algorithm_witness :
    ((("svc" ++ "-" ++ "dev" ++ "-" ++ "createItem" ++ "-" ++ "us-east-1") ++
        "-lambdaRole").length ≤ 64) ∧
    deriveRoleName "dev" "us-east-1" "svc" "createItem" =
      ("svc" ++ "-" ++ "dev" ++ "-" ++ "createItem" ++ "-" ++ "us-east-1") ++ "-lambdaRole" :=
  ⟨by decide, (deriveRoleName_algorithm "dev" "us-east-1" "svc" "createItem").1 (by decide)⟩

/-- C4 counterexample: with a 58-character service name (all inputs
non-empty), the suffixed concatenation exceeds 64 characters, and the
suffix-less fallback the code returns instead is 66 characters — still over
the cap, refuting the claim that the derived name never exceeds 64. -/
theorem deriveRoleName_cap_counterexample :
    64 < (((longService ++ "-" ++ "dev" ++ "-" ++ "f" ++ "-" ++ "r") ++
      "-lambdaRole").length) ∧
    (deriveRoleName "dev" "r" longService "f").length = 66 ∧
    64 < (deriveRoleName "dev" "r" longService "f").length := by
  refine ⟨by decide, by decide, by decide⟩

/-- C4 amended: the fallback used when the suffixed name exceeds the cap is
only 11 characters shorter, so the derived name stays within the
64-character cap exactly when the suffix-less base itself is within the
cap; it is not within the cap for arbitrarily long inputs. -/
theorem deriveRoleName_cap_amended (stage rg svc fn : String)
    (h : (svc ++ "-" ++ stage ++ "-" ++ fn ++ "-" ++ rg).length ≤ 64) :
    (deriveRoleName stage rg svc fn).length ≤ 64 := by
  simp only [deriveRoleName]
  split
  · exact h
  · next h2 => omega

/-- Witness for the amended C4: a 54-character service name makes the
suffixed name exceed the cap while the returned base stays within it. -/
theorem deriveRoleName_cap_amended_witness :
    ((midService ++ "-" ++ "dev" ++ "-" ++ "f" ++ "-" ++ "r").length ≤ 64) ∧
    (deriveRoleName "dev" "r" midService "f").length ≤ 64 :=
  ⟨by decide, deriveRoleName_cap_amended "dev" "r" midService "f" (by decide)⟩

/-- C2: the trust decision on the first statement's `Principal.AWS` field,
for a (non-empty) caller principal: absent or empty-scalar field becomes
just the caller principal; a scalar equal to the caller means no change,
zero mutation calls and no settle delay; a different non-empty scalar is
replaced by the ordered list `[existing, caller]`; a list containing the
caller means no change and zero mutation calls; a list not containing the
caller gets the caller appended.  Every mutated outcome performs exactly
one `UpdateAssumeRolePolicy` call followed by the fixed 15-second settle
delay. -/
theorem trust_decision_table (p : String) (hp : p ≠ "") :
    updateRoleTrustPolicy p .absent =
      { field := .scalar p, mutationCalls := 1, settleDelaySeconds := 15 } ∧
    updateRoleTrustPolicy p (.scalar "") =
      { field := .scalar p, mutationCalls := 1, settleDelaySeconds := 15 } ∧
    updateRoleTrustPolicy p (.scalar p) =
      { field := .scalar p, mutationCalls := 0, settleDelaySeconds := 0 } ∧
    (∀ s, s ≠ "" → s ≠ p →
      updateRoleTrustPolicy p (.scalar s) =
        { field := .list [s, p], mutationCalls := 1, settleDelaySeconds := 15 }) ∧
    (∀ l, p ∈ l →
      updateRoleTrustPolicy p (.list l) =
        { field := .list l, mutationCalls := 0, settleDelaySeconds := 0 }) ∧
    (∀ l, p ∉ l →
      updateRoleTrustPolicy p (.list l) =
        { field := .list (l ++ [p]), mutationCalls := 1, settleDelaySeconds := 15 }) := by
  refine ⟨rfl, rfl, ?_, ?_, ?_, ?_⟩
  · simp [updateRoleTrustPolicy, shouldUpdateRole, hp]
  · intro s hs hsp
    simp [updateRoleTrustPolicy, shouldUpdateRole, updatedPrincipalField, hs, hsp]
  · intro l hl
    simp [updateRoleTrustPolicy, shouldUpdateRole, hp, hl]
  · intro l hl
    simp [updateRoleTrustPolicy, shouldUpdateRole, updatedPrincipalField, hl]

/-- Witness for C2 at a concrete caller principal. -/
theorem trust_decision_table_witness :
    updateRoleTrustPolicy "arn:aws:iam::123456789012:user/dev" .absent =
      { field := .scalar "arn:aws:iam::123456789012:user/dev",
        mutationCalls := 1, settleDelaySeconds := 15 } ∧
    updateRoleTrustPolicy "arn:aws:iam::123456789012:user/dev"
        (.list ["arn:aws:iam::123456789012:user/other",
                "arn:aws:iam::123456789012:user/dev"]) =
      { field := .list ["arn:aws:iam::123456789012:user/other",
                        "arn:aws:iam::123456789012:user/dev"],
        mutationCalls := 0, settleDelaySeconds := 0 } :=
  ⟨(trust_decision_table "arn:aws:iam::123456789012:user/dev" (by decide)).1,
   (trust_decision_table "arn:aws:iam::123456789012:user/dev" (by decide)).2.2.2.2.1
     ["arn:aws:iam::123456789012:user/other", "arn:aws:iam::123456789012:user/dev"]
     (by decide)⟩

/-- An environment with the three naming variables present and no
credentials or SSO markers set. -/
def namingEnv : Env :=
  { AWS_ACCESS_KEY_ID := none
    AWS_SECRET_ACCESS_KEY := none
    AWS_SESSION_TOKEN := none
    AWS_PROFILE := none
    AWS_SSO_SESSION_NAME := none
    AWS_SSO_START_URL := none
    stage := some "dev"
    region := some "us-east-1"
    service := some "svc" }

/-- C7 counterexample: (a) with stage, region and service set, an EMPTY
function logical name does not fail — derivation proceeds and a role name
is produced, contradicting "if any of ... (or the function logical name) is
empty/absent, it fails"; (b) with only `stage` missing, the error message
names all three environment inputs (including the present `region` and
`service` with their values), not exactly the missing ones. -/
theorem lambdaName_validation_counterexample :
    assumeRoleByLambdaName namingEnv "" = .ok "svc-dev--us-east-1-lambdaRole" ∧
    assumeRoleByLambdaName { namingEnv with stage := none } "createItem" =
      .error ("You need to define in Lambda variables: stage(undefined), " ++
        "region(us-east-1), service(svc).") :=
  ⟨rfl, rfl⟩

/-- C7 amended: if any of the environment inputs stage, region, service is
empty or absent (JS-falsy), `assumeRoleByLambdaName` throws — before any
remote call — a configuration error whose message interpolates the current
values of all three inputs (a missing one renders as `undefined`); the
function logical name is never validated, and when the three environment
inputs are present the call proceeds to role-name derivation even for an
empty function logical name. -/
theorem lambdaName_validation_amended (e : Env) (fn : String) :
    ((truthyOpt e.stage = false ∨ truthyOpt e.region = false ∨
        truthyOpt e.service = false) →
      assumeRoleByLambdaName e fn =
        .error ("You need to define in Lambda variables: stage(" ++ jsInterp e.stage ++
          "), region(" ++ jsInterp e.region ++ "), service(" ++ jsInterp e.service ++ ").")) ∧
    (truthyOpt e.stage = true → truthyOpt e.region = true → truthyOpt e.service = true →
      assumeRoleByLambdaName e fn =
        .ok (deriveRoleName (jsInterp e.stage) (jsInterp e.region) (jsInterp e.service) fn)) := by
  constructor
  · intro h
    have hc : (!truthyOpt e.stage || !truthyOpt e.region || !truthyOpt e.service) = true := by
      rcases h with h | h | h <;> simp [h]
    simp only [assumeRoleByLambdaName]
    rw [if_pos hc]
  · intro h1 h2 h3
    have hc : (!truthyOpt e.stage || !truthyOpt e.region || !truthyOpt e.service) = false := by
      simp [h1, h2, h3]
    simp only [assumeRoleByLambdaName]
    rw [if_neg (by simp [hc])]

/-- Witness for the amended C7: both branches at concrete inputs. -/
theorem lambdaName_validation_amended_witness :
    assumeRoleByLambdaName { namingEnv with service := some "" } "createItem" =
      .error ("You need to define in Lambda variables: stage(dev), " ++
        "region(us-east-1), service().") ∧
    assumeRoleByLambdaName namingEnv "createItem" =
      .ok (deriveRoleName "dev" "us-east-1" "svc" "createItem") := by
  constructor
  · have h := (lambdaName_validation_amended { namingEnv with service := some "" }
      "createItem").1 (by right; right; rfl)
    rw [h]
    rfl
  · exact (lambdaName_validation_amended namingEnv "createItem").2 rfl rfl rfl

/-- C10: when a session is classified STATIC at installation time,
`setCredentialsInEnv` writes only the three assumed-credential variables
and leaves `AWS_PROFILE` (and every other field) untouched; the profile
reference is deleted only when the session is classified FEDERATED. -/
theorem setCredentialsInEnv_frame (s : Session) (e e1 : Env)
    (hset : setCredentialsInEnv s e = some e1) :
    (s.isSSO = false →
      e1.AWS_PROFILE = e.AWS_PROFILE ∧
      (∃ c, s.credentials = some c ∧
        e1.AWS_ACCESS_KEY_ID = some c.accessKeyId ∧
        e1.AWS_SECRET_ACCESS_KEY = some c.secretAccessKey ∧
        e1.AWS_SESSION_TOKEN = some c.sessionToken) ∧
      e1.AWS_SSO_SESSION_NAME = e.AWS_SSO_SESSION_NAME ∧
      e1.AWS_SSO_START_URL = e.AWS_SSO_START_URL ∧
      e1.stage = e.stage ∧ e1.region = e.region ∧ e1.service = e.service) ∧
    (s.isSSO = true → e1.AWS_PROFILE = none) := by
  cases hcs : s.credentials with
  | none => simp [setCredentialsInEnv, hcs] at hset
  | some c =>
    constructor
    · intro hsso
      simp [setCredentialsInEnv, hcs, hsso] at hset
      subst hset
      exact ⟨rfl, ⟨c, rfl, rfl, rfl, rfl⟩, rfl, rfl, rfl, rfl, rfl⟩
    · intro hsso
      simp [setCredentialsInEnv, hcs, hsso] at hset
      subst hset
      rfl

/-- Witness for C10 on the concrete static session. -/
theorem setCredentialsInEnv_frame_witness :
    assumedEnv.AWS_PROFILE = sampleEnv.AWS_PROFILE ∧
    (∃ c, staticSession.credentials = some c ∧
      assumedEnv.AWS_ACCESS_KEY_ID = some c.accessKeyId ∧
      assumedEnv.AWS_SECRET_ACCESS_KEY = some c.secretAccessKey ∧
      assumedEnv.AWS_SESSION_TOKEN = some c.sessionToken) ∧
    assumedEnv.AWS_SSO_SESSION_NAME = sampleEnv.AWS_SSO_SESSION_NAME ∧
    assumedEnv.AWS_SSO_START_URL = sampleEnv.AWS_SSO_START_URL ∧
    assumedEnv.stage = sampleEnv.stage ∧ assumedEnv.region = sampleEnv.region ∧
    assumedEnv.service = sampleEnv.service :=
  (setCredentialsInEnv_frame staticSession sampleEnv assumedEnv (by decide)).1 (by decide)

/-- C1: on a STATIC-origin session, installing the assumed credentials and
then running the instance `assumeUserRoleBack` leaves the four-field
credential context bit-for-bit equal to the constructor snapshot: present
fields regain their original values and fields absent before remain
absent. -/
theorem static_assume_restore_roundtrip (s : Session) (e e1 : Env)
    (v : StsResult CallerIdentity) (r : RestoreOutcome)
    (hsso : s.isSSO = false)
    (hsnap : s.originalCredentialState = credSnapshot e)
    (hset : setCredentialsInEnv s e = some e1)
    (hback : assumeUserRoleBack s v e1 = .ok r) :
    credSnapshot r.env = credSnapshot e := by
  cases hcs : s.credentials with
  | none => simp [setCredentialsInEnv, hcs] at hset
  | some c =>
    simp [setCredentialsInEnv, hcs, hsso] at hset
    simp [assumeUserRoleBack, hsso] at hback
    subst hset
    subst hback
    simp [staticRestoredEnv, clearAssumedCreds, credSnapshot, hsnap,
      restoreField_none, restoreField_self]

/-- Witness for C1: the concrete static session restores `sampleEnv`
exactly (including the absent `AWS_SESSION_TOKEN` staying absent). -/
theorem static_assume_restore_roundtrip_witness :
    credSnapshot (RestoreOutcome.mk sampleEnv 0).env = credSnapshot sampleEnv :=
  static_assume_restore_roundtrip staticSession sampleEnv assumedEnv
    (.ok sampleIdentity) (RestoreOutcome.mk sampleEnv 0)
    (by decide) (by decide) (by decide) rfl

/-- C5 counterexample: after the concrete static session completed its
assumption (credentials installed into `assumedEnv`), the static
`assumeUserRoleBack` — and both `leaveLambdaRole` conveniences that forward
to it — merely deletes the three assumed-credential variables; the
original `AWS_ACCESS_KEY_ID` of the pre-assumption state `sampleEnv` is NOT
reinstated, so the ambient context is not restored. -/
theorem static_restore_counterexample :
    setCredentialsInEnv staticSession sampleEnv = some assumedEnv ∧
    sampleEnv.AWS_ACCESS_KEY_ID = some "AKIAORIGINAL" ∧
    (staticAssumeUserRoleBack assumedEnv).AWS_ACCESS_KEY_ID = none ∧
    staticAssumeUserRoleBack assumedEnv ≠ sampleEnv ∧
    instanceLeaveLambdaRole staticSession assumedEnv ≠ sampleEnv ∧
    staticLeaveLambdaRole assumedEnv ≠ sampleEnv := by
  decide

/-- C5 amended: the static/global convenience restore (and the two
`leaveLambdaRole` wrappers, which forward to it) only deletes the three
assumed-credential variables, leaving `AWS_PROFILE` as installation left
it; it restores the pre-assumption ambient context exactly when all three
of those variables were absent before assumption began.  Full restoration
is only performed by the instance `assumeUserRoleBack`. -/
theorem static_restore_amended (s : Session) (e e1 : Env)
    (hsso : s.isSSO = false)
    (hset : setCredentialsInEnv s e = some e1) :
    ((staticAssumeUserRoleBack e1).AWS_ACCESS_KEY_ID = none ∧
     (staticAssumeUserRoleBack e1).AWS_SECRET_ACCESS_KEY = none ∧
     (staticAssumeUserRoleBack e1).AWS_SESSION_TOKEN = none ∧
     (staticAssumeUserRoleBack e1).AWS_PROFILE = e.AWS_PROFILE) ∧
    (instanceLeaveLambdaRole s e1 = staticAssumeUserRoleBack e1 ∧
     staticLeaveLambdaRole e1 = staticAssumeUserRoleBack e1) ∧
    (e.AWS_ACCESS_KEY_ID = none → e.AWS_SECRET_ACCESS_KEY = none →
      e.AWS_SESSION_TOKEN = none → staticAssumeUserRoleBack e1 = e) := by
  cases hcs : s.credentials with
  | none => simp [setCredentialsInEnv, hcs] at hset
  | some c =>
    simp [setCredentialsInEnv, hcs, hsso] at hset
    subst hset
    refine ⟨⟨rfl, rfl, rfl, rfl⟩, ⟨rfl, rfl⟩, ?_⟩
    intro h1 h2 h3
    cases e
    simp_all [staticAssumeUserRoleBack, clearAssumedCreds]

/-- Witness for the amended C5: when the three credential variables were
absent pre-assumption, the static restore does recover the original
environment. -/
theorem static_restore_amended_witness :
    staticAssumeUserRoleBack cleanAssumedEnv = cleanEnv :=
  (static_restore_amended cleanSession cleanEnv cleanAssumedEnv
    (by decide) (by decide)).2.2 rfl rfl rfl

/-- C6: the credential-origin classification is one-way.  No session
operation (any `SessionStep`) ever turns `isSSO` from true back to false,
while each of the independent detectors can upgrade it: the
federation-reserved principal-ARN substring in `getCallerIdentity`, the
refused-`GetSessionToken` error in `getCallerCredentials`, and the SSO
environment marker and profile-name heuristic at construction. -/
theorem isSSO_one_way :
    (∀ s t : Session, SessionStep s t → s.isSSO = true → t.isSSO = true) ∧
    (getCallerIdentity staticSession
      { Account := "123456789012",
        Arn := "arn:aws:sts::123456789012:assumed-role/AWSReservedSSO_Admin_abc/dev" }).isSSO
        = true ∧
    (getCallerCredentials (getCallerIdentity (mkSession "r" sampleEnv) sampleIdentity)
      (.err "AccessDenied"
        "Cannot call GetSessionToken with session credentials")).isSSO = true ∧
    detectSSO { sampleEnv with AWS_SSO_START_URL := some "https://x.awsapps.com/start" }
      = true ∧
    detectSSO ssoEnv = true := by
  refine ⟨?_, by decide, by decide, by decide, by decide⟩
  intro s t h hs
  cases h <;>
    simp_all [getCallerIdentity, getCallerCredentials, getRoleTrustPolicy,
      sessionUpdateTrustPolicy, assumeLambdaRole, getCallerIdentityInRole,
      refreshCredentials]

/-- Witness for C6: a step from a FEDERATED session leaves it FEDERATED. -/
theorem isSSO_one_way_witness :
    (getCallerIdentity ssoSession sampleIdentity).isSSO = true :=
  isSSO_one_way.1 ssoSession (getCallerIdentity ssoSession sampleIdentity)
    (SessionStep.callerIdentity ssoSession sampleIdentity) (by decide)

/-- C8: for a FEDERATED-origin session the instance `assumeUserRoleBack`
returns normally for every outcome of the verification identity call: the
resulting environment is the same either way (profile reinstated, assumed
credentials cleared), the wait is the 2-second settle delay plus one extra
3-second delay when verification failed, and no error is ever
propagated. -/
theorem sso_restore_never_raises (s : Session) (e : Env) (v : StsResult CallerIdentity)
    (h : s.isSSO = true) :
    assumeUserRoleBack s v e =
      .ok { env := ssoRestoredEnv s.originalCredentialState e,
            delaySeconds := match v with | .ok _ => 2 | .err _ _ => 2 + 3 } := by
  cases v <;> simp [assumeUserRoleBack, h]

/-- Witness for C8: a failing verification call still yields a normal
return, after the 2+3-second waits. -/
theorem sso_restore_never_raises_witness :
    assumeUserRoleBack ssoSession (.err "ExpiredToken" "token expired") assumedEnv =
      .ok { env := ssoRestoredEnv ssoSession.originalCredentialState assumedEnv,
            delaySeconds := 5 } :=
  sso_restore_never_raises ssoSession assumedEnv (.err "ExpiredToken" "token expired")
    (by decide)

/-- C9: in `withAssumedRole` (and `describeWithRole`, whose trace is the
same), whenever the caller-supplied cleanup callback runs, the credential
restoration has already completed earlier in the trace; and when role
assumption did not complete successfully, cleanup is not invoked at
all. -/
theorem cleanup_after_restore (a c : Bool) :
    describeWithRole a c = withAssumedRole a c ∧
    (TestEvent.cleanupInvoked ∈ withAssumedRole a c →
      TestEvent.restoreCompleted ∈ withAssumedRole a c ∧
      (withAssumedRole a c).indexOf TestEvent.restoreCompleted <
        (withAssumedRole a c).indexOf TestEvent.cleanupInvoked) ∧
    (a = false → TestEvent.cleanupInvoked ∉ withAssumedRole a c) := by
  cases a <;> cases c <;> exact ⟨rfl, by decide, by decide⟩

/-- Witness for C9: with assumption completed and a cleanup supplied,
restoration strictly precedes cleanup in the trace. -/
theorem cleanup_after_restore_witness :
    TestEvent.restoreCompleted ∈ withAssumedRole true true ∧
    (withAssumedRole true true).indexOf TestEvent.restoreCompleted <
      (withAssumedRole true true).indexOf TestEvent.cleanupInvoked :=
  (cleanup_after_restore true true).2.1 (by decide)

end IamHelper
